import Mathlib

/-!
# Shallow embedding of the Daily-Summarizer authentication core

This file embeds the authentication/session subsystem of the repository
(`src/server/auth.ts`, the password-based auth routes file, the legacy SSO
module concatenated at the end of `auth.ts`, and the table layout of
`src/shared/schema.ts` together with the applied migration DDL) as
executable Lean definitions, and proves the frozen claims about it.

Modelling conventions:
* The relational store is a record of lists of rows plus `serial` counters.
* `bcrypt` is modelled as an abstract `Hasher` (hash / verify) passed in.
* `crypto.randomBytes` token generation is modelled by passing the fresh
  token string as an argument.
* The SMTP mailer is modelled by two configuration flags: whether SMTP is
  configured and whether a send succeeds.
* JavaScript `Date.now()` timestamps are modelled as `Nat` milliseconds;
  drizzle's `gt(expiresAt, new Date())` becomes `now < expiresAt`.
* Operations return a pair of an outcome (`Except` over the thrown message
  strings of the source; route handlers return a status code and body) and
  the post-call store, so that failure paths keep their state visible.
-/

namespace DailySummarizer

/-- A row of the `users` table (`src/shared/schema.ts`, plus the
`microsoft_id` column of the original migration and the `first_name` /
`last_name` columns added by the name migration). -/
structure User where
  id : Nat
  email : String
  passwordHash : String
  firstName : String
  lastName : String
  displayName : String
  role : String
  emailVerified : Bool
  microsoftId : Option String
  lastLoginAt : Option Nat
  deriving Repr, DecidableEq

/-- A row of the `verification_tokens` or `password_reset_tokens` table:
`id`, owning `user_id`, opaque `token` string, `expires_at`. -/
structure TokenRow where
  id : Nat
  userId : Nat
  token : String
  expiresAt : Nat
  deriving Repr, DecidableEq

/-- The relational store: `users`, `verification_tokens`,
`password_reset_tokens` and (legacy design) `allowed_domains`, with the
`serial` id counters made explicit. -/
structure Store where
  users : List User
  verificationTokens : List TokenRow
  passwordResetTokens : List TokenRow
  allowedDomains : List String
  nextUserId : Nat
  nextVTokenId : Nat
  nextRTokenId : Nat
  deriving Repr, DecidableEq

/-- The bcrypt primitive of `auth.ts` (`hashPassword` / `verifyPassword`),
abstracted: an adaptive hash and its verifier. -/
structure Hasher where
  hash : String → String
  verify : String → String → Bool

/-- Environment-level configuration read by the source: whether SMTP is
configured (`EMAIL_USER`/`EMAIL_PASSWORD` or `SMTP_USER`/`SMTP_PASS`),
whether an attempted send succeeds (the mailer's behaviour), and
`FIRST_ADMIN_EMAIL` for the legacy SSO module. -/
structure Config where
  smtpConfigured : Bool
  sendOk : Bool
  firstAdminEmail : Option String

/-- The public identity snapshot placed into the session on login
(`loginUser`'s return value / `req.session.user`). -/
structure SessionUser where
  id : Nat
  email : String
  displayName : String
  firstName : String
  lastName : String
  role : String
  emailVerified : Bool
  deriving Repr, DecidableEq

/-- Outcome of an Express route handler: a success payload, or an error
status code with the JSON `error` message. -/
inductive HandlerOut (α : Type) where
  | ok : α → HandlerOut α
  | err : Nat → String → HandlerOut α
  deriving Repr, DecidableEq

instance {ε α : Type} [DecidableEq ε] [DecidableEq α] : DecidableEq (Except ε α) := fun a b =>
  match a, b with
  | Except.ok x, Except.ok y =>
    if h : x = y then isTrue (by rw [h]) else isFalse (by simp [h])
  | Except.error x, Except.error y =>
    if h : x = y then isTrue (by rw [h]) else isFalse (by simp [h])
  | Except.ok _, Except.error _ => isFalse (by simp)
  | Except.error _, Except.ok _ => isFalse (by simp)

/-- JavaScript's `String.prototype.toLowerCase`, character by character
(the source's `email.toLowerCase()`). Defined over the character list so
that concrete instances reduce inside the kernel. -/
def jsToLower (s : String) : String := String.mk (s.data.map Char.toLower)

/-- Strip leading whitespace from a character list (helper for `jsTrim`). -/
def dropLeadingWs : List Char → List Char
  | [] => []
  | c :: r => if c.isWhitespace then dropLeadingWs r else c :: r

/-- JavaScript's `String.prototype.trim` (the source's
`firstName.trim()`): whitespace stripped from both ends, over the
character list. -/
def jsTrim (s : String) : String :=
  String.mk ((dropLeadingWs (dropLeadingWs s.data).reverse).reverse)

/-- Deleting a user row. The applied DDL (password migration) declares
`verification_tokens.user_id REFERENCES users(id) ON DELETE cascade`, and
the reset-token table is specified with the same cascade, so deleting the
user removes its token rows as well. -/
def deleteUserCascade (st : Store) (uid : Nat) : Store :=
  { st with
    users := st.users.filter (fun u => u.id ≠ uid),
    verificationTokens := st.verificationTokens.filter (fun t => t.userId ≠ uid),
    passwordResetTokens := st.passwordResetTokens.filter (fun t => t.userId ≠ uid) }

/-- `registerUser` of `auth.ts` (lines 80–148): normalize the email,
reject duplicates, weak passwords and empty trimmed names, insert the user
(auto-verified when SMTP is unconfigured), and when SMTP is configured
create a verification token and attempt the send, deleting the new user on
send failure. `tokenStr` stands for the random token `generateToken()`
would produce. -/
def registerUser (cfg : Config) (hasher : Hasher) (st : Store) (now : Nat)
    (tokenStr : String) (email password firstName lastName : String) :
    Except String User × Store :=
  let normalizedEmail := jsToLower email
  if st.users.any (fun u => u.email == normalizedEmail) then
    (Except.error "User with this email already exists", st)
  else if password.length < 8 then
    (Except.error "Password must be at least 8 characters long", st)
  else
    let trimmedFirstName := jsTrim firstName
    let trimmedLastName := jsTrim lastName
    if trimmedFirstName.length == 0 || trimmedLastName.length == 0 then
      (Except.error "First name and last name cannot be empty", st)
    else
      let passwordHash := hasher.hash password
      let newUser : User :=
        { id := st.nextUserId
          email := normalizedEmail
          passwordHash := passwordHash
          firstName := trimmedFirstName
          lastName := trimmedLastName
          displayName := trimmedFirstName ++ " " ++ trimmedLastName
          role := "user"
          emailVerified := !cfg.smtpConfigured
          microsoftId := none
          lastLoginAt := none }
      let st1 := { st with users := st.users ++ [newUser],
                           nextUserId := st.nextUserId + 1 }
      if cfg.smtpConfigured then
        let vtok : TokenRow :=
          { id := st1.nextVTokenId
            userId := newUser.id
            token := tokenStr
            expiresAt := now + 24 * 60 * 60 * 1000 }
        let st2 := { st1 with
                     verificationTokens := st1.verificationTokens ++ [vtok],
                     nextVTokenId := st1.nextVTokenId + 1 }
        if cfg.sendOk then
          (Except.ok newUser, st2)
        else
          (Except.error "Failed to send verification email. Please check your email configuration.",
           deleteUserCascade st2 newUser.id)
      else
        (Except.ok newUser, st1)

/-- `verifyEmailToken` of `auth.ts` (lines 151–179): find a matching,
unexpired verification token; on a miss throw
`"Invalid or expired verification token"`; otherwise set the owning
user's `emailVerified` and delete the consumed token row. -/
def verifyEmailToken (st : Store) (now : Nat) (tok : String) :
    Except String Bool × Store :=
  match st.verificationTokens.find? (fun t => t.token == tok && now < t.expiresAt) with
  | none => (Except.error "Invalid or expired verification token", st)
  | some vt =>
    let st1 := { st with
      users := st.users.map (fun (u : User) =>
        if u.id == vt.userId then { u with emailVerified := true } else u) }
    let st2 := { st1 with
      verificationTokens := st1.verificationTokens.filter (fun t => t.id ≠ vt.id) }
    (Except.ok true, st2)

/-- `loginUser` of `auth.ts` (lines 182–224): normalize the email, look up
the user; a missing user and a failed password verification both throw the
same `"Invalid email or password"`; an unverified email throws its own
message; on success update `lastLoginAt` and return the public snapshot. -/
def loginUser (hasher : Hasher) (st : Store) (now : Nat)
    (email password : String) : Except String SessionUser × Store :=
  let normalizedEmail := jsToLower email
  match st.users.find? (fun u => u.email == normalizedEmail) with
  | none => (Except.error "Invalid email or password", st)
  | some u =>
    if !(hasher.verify password u.passwordHash) then
      (Except.error "Invalid email or password", st)
    else if !u.emailVerified then
      (Except.error "Please verify your email before logging in", st)
    else
      let st1 := { st with
        users := st.users.map (fun v =>
          if v.id == u.id then { v with lastLoginAt := some now } else v) }
      (Except.ok
        { id := u.id, email := u.email, displayName := u.displayName
          firstName := u.firstName, lastName := u.lastName
          role := u.role, emailVerified := u.emailVerified }, st1)

/-- The `POST /login` route handler of the auth routes file: missing
fields give a 400; any `loginUser` failure is returned as a 401 with the
thrown message; success stores the snapshot in the session and returns it. -/
def loginRoute (hasher : Hasher) (st : Store) (now : Nat)
    (email password : String) : HandlerOut SessionUser × Store :=
  if email == "" || password == "" then
    (HandlerOut.err 400 "Email and password are required", st)
  else
    match loginUser hasher st now email password with
    | (Except.ok u, st1) => (HandlerOut.ok u, st1)
    | (Except.error msg, st1) => (HandlerOut.err 401 msg, st1)

/-- `createPasswordResetToken` of `auth.ts` (lines 227–257): normalize the
email; return `none` when no user matches; otherwise delete every existing
reset token of that user, insert a fresh one-hour token and return it.
`tokenStr` stands for the random token `generateToken()` would produce. -/
def createPasswordResetToken (st : Store) (now : Nat) (tokenStr : String)
    (email : String) : Option String × Store :=
  let normalizedEmail := jsToLower email
  match st.users.find? (fun u => u.email == normalizedEmail) with
  | none => (none, st)
  | some u =>
    let st1 := { st with
      passwordResetTokens := st.passwordResetTokens.filter (fun t => t.userId ≠ u.id) }
    let row : TokenRow :=
      { id := st1.nextRTokenId, userId := u.id, token := tokenStr
        expiresAt := now + 60 * 60 * 1000 }
    let st2 := { st1 with
      passwordResetTokens := st1.passwordResetTokens ++ [row],
      nextRTokenId := st1.nextRTokenId + 1 }
    (some tokenStr, st2)

/-- `verifyPasswordResetToken` of `auth.ts` (lines 260–287): read-only
lookup of a matching, unexpired reset token; returns the owning user's
email, or `none`. -/
def verifyPasswordResetToken (st : Store) (now : Nat) (tok : String) :
    Option String :=
  match st.passwordResetTokens.find? (fun t => t.token == tok && now < t.expiresAt) with
  | none => none
  | some rt =>
    match st.users.find? (fun u => u.id == rt.userId) with
    | none => none
    | some u => some u.email

/-- `resetPasswordWithToken` of `auth.ts` (lines 290–326): find a
matching, unexpired reset token (else throw
`"Invalid or expired reset token"`), enforce the 8-character floor, store
the new hash and delete the consumed token. -/
def resetPasswordWithToken (hasher : Hasher) (st : Store) (now : Nat)
    (tok newPassword : String) : Except String Bool × Store :=
  match st.passwordResetTokens.find? (fun t => t.token == tok && now < t.expiresAt) with
  | none => (Except.error "Invalid or expired reset token", st)
  | some rt =>
    if newPassword.length < 8 then
      (Except.error "Password must be at least 8 characters long", st)
    else
      let st1 := { st with
        users := st.users.map (fun (u : User) =>
          if u.id == rt.userId then { u with passwordHash := hasher.hash newPassword } else u) }
      let st2 := { st1 with
        passwordResetTokens := st1.passwordResetTokens.filter (fun t => t.id ≠ rt.id) }
      (Except.ok true, st2)

/-- The `requireAdmin` middleware of `auth.ts` (lines 40–47): passes
iff the request's session carries a user snapshot whose `role` is
`"admin"`. The source module has the database handle in scope but this
middleware reads only `req.session`; the store argument records that the
decision is made with the store available yet unread. -/
def requireAdminCheck (_st : Store) (session : Option SessionUser) : Bool :=
  match session with
  | some u => u.role == "admin"
  | none => false

/-- Server-side application state: the relational store plus the live
sessions (session id ↦ cached user snapshot). -/
structure AppState where
  store : Store
  sessions : List (Nat × SessionUser)
  deriving Repr, DecidableEq

/-- The `PATCH /users/:id/role` handler of the auth routes file: gated by
`requireAdmin`, validates `role ∈ {user, admin}`, then updates the target
user's stored role. It never touches any session. -/
def updateUserRoleHandler (app : AppState) (session : Option SessionUser)
    (targetId : Nat) (role : String) : HandlerOut String × AppState :=
  if !(requireAdminCheck app.store session) then
    (HandlerOut.err 403 "Forbidden: Admin access required", app)
  else if !(role == "user" || role == "admin") then
    (HandlerOut.err 400 "Invalid role", app)
  else
    let st1 := { app.store with
      users := app.store.users.map (fun u =>
        if u.id == targetId then { u with role := role } else u) }
    (HandlerOut.ok "success", { app with store := st1 })

/-- The `POST /verify-me` handler of the auth routes file: registered with
no `requireAuth`/`requireAdmin` middleware, it takes only the body email
(rejecting a falsy one), sets `emailVerified := true` and
`role := "admin"` on every user row with exactly that email, and returns
the first updated row (404 when none matched). -/
def verifyMeHandler (st : Store) (email : String) : HandlerOut User × Store :=
  if email == "" then (HandlerOut.err 400 "Email is required", st)
  else
    let updated := (st.users.filter (fun u => u.email == email)).map
      (fun u => { u with emailVerified := true, role := "admin" })
    match updated with
    | [] => (HandlerOut.err 404 "User not found", st)
    | u0 :: _ =>
      let st1 := { st with
        users := st.users.map (fun u =>
          if u.email == email then { u with emailVerified := true, role := "admin" } else u) }
      (HandlerOut.ok u0, st1)

/-- The `PATCH /profile/name` handler of the auth routes file (behind
`requireAuth`, so a session snapshot is present): validates the names,
updates `firstName`, `lastName` and the recomputed `displayName` on the
user's row, and patches the live session object by spreading the old
snapshot and overwriting only `displayName`. Returns the handler outcome,
the post-call store and the post-call session snapshot. The `id == 0`
branch mirrors JavaScript's falsy check on `req.session.user?.id`. -/
def profileNameHandler (st : Store) (sess : SessionUser)
    (firstName lastName : String) : HandlerOut SessionUser × Store × SessionUser :=
  if sess.id == 0 then (HandlerOut.err 401 "Unauthorized", st, sess)
  else if firstName == "" || lastName == "" then
    (HandlerOut.err 400 "First name and last name are required", st, sess)
  else
    let trimmedFirstName := jsTrim firstName
    let trimmedLastName := jsTrim lastName
    if trimmedFirstName.length == 0 || trimmedLastName.length == 0 then
      (HandlerOut.err 400 "First name and last name cannot be empty", st, sess)
    else
      let updated := (st.users.filter (fun u => u.id == sess.id)).map
        (fun u => { u with firstName := trimmedFirstName, lastName := trimmedLastName
                           displayName := trimmedFirstName ++ " " ++ trimmedLastName })
      match updated with
      | [] => (HandlerOut.err 404 "User not found", st, sess)
      | u0 :: _ =>
        let st1 := { st with
          users := st.users.map (fun u =>
            if u.id == sess.id then
              { u with firstName := trimmedFirstName, lastName := trimmedLastName
                       displayName := trimmedFirstName ++ " " ++ trimmedLastName }
            else u) }
        let sess1 := { sess with displayName := trimmedFirstName ++ " " ++ trimmedLastName }
        (HandlerOut.ok
          { id := u0.id, email := u0.email, displayName := u0.displayName
            firstName := u0.firstName, lastName := u0.lastName
            role := u0.role, emailVerified := u0.emailVerified }, st1, sess1)

/-- The `PATCH /profile/password` handler of the auth routes file (behind
`requireAuth`): requires both fields, checks the 8-character floor on the
new password, then looks the user up, verifies the current password
(`"Current password is incorrect"` on failure) and finally stores the new
hash. The `id == 0` branch mirrors JavaScript's falsy check on
`req.session.user?.id`. -/
def changePasswordHandler (hasher : Hasher) (st : Store) (sess : SessionUser)
    (currentPassword newPassword : String) : HandlerOut String × Store :=
  if sess.id == 0 then (HandlerOut.err 401 "Unauthorized", st)
  else if currentPassword == "" || newPassword == "" then
    (HandlerOut.err 400 "Current password and new password are required", st)
  else if newPassword.length < 8 then
    (HandlerOut.err 400 "New password must be at least 8 characters long", st)
  else
    match st.users.find? (fun u => u.id == sess.id) with
    | none => (HandlerOut.err 404 "User not found", st)
    | some u =>
      if !(hasher.verify currentPassword u.passwordHash) then
        (HandlerOut.err 400 "Current password is incorrect", st)
      else
        let st1 := { st with
          users := st.users.map (fun v =>
            if v.id == sess.id then { v with passwordHash := hasher.hash newPassword } else v) }
        (HandlerOut.ok "Password updated successfully", st1)

/-- JavaScript's `String.prototype.split` on a single-character separator,
at the character-list level: `"a@b".split("@") = ["a","b"]`,
`"".split("@") = [""]`, `"a@".split("@") = ["a",""]`. -/
def jsSplit (sep : Char) : List Char → List (List Char)
  | [] => [[]]
  | c :: rest =>
    let r := jsSplit sep rest
    if c = sep then [] :: r
    else
      match r with
      | [] => [[c]]
      | h :: t => (c :: h) :: t

/-- `isDomainAllowed` of the legacy SSO module (`auth.ts` lines 398–409):
take `email.split("@")[1]`; a missing or empty segment (JavaScript falsy)
is rejected; otherwise the segment must be on the `allowed_domains`
whitelist. -/
def isDomainAllowed (st : Store) (email : String) : Bool :=
  match (jsSplit '@' email.data).get? 1 with
  | none => false
  | some [] => false
  | some d => st.allowedDomains.contains (String.mk d)

/-- The Microsoft profile consumed by the legacy SSO provisioning. -/
structure MsProfile where
  oid : String
  email : String
  name : String
  deriving Repr, DecidableEq

/-- `getOrCreateUser` of the legacy SSO module (`auth.ts` lines 412–477):
look up by `microsoftId` (returning the pre-update row after bumping
`lastLoginAt`); else by exact email (backfilling the `microsoftId`); else
admit only when the domain is whitelisted or the email equals
`FIRST_ADMIN_EMAIL`, creating the row with role `admin` exactly for the
bootstrap admin. Columns the legacy insert does not set are given the
schema defaults (empty strings / unverified). -/
def getOrCreateUser (cfg : Config) (st : Store) (now : Nat)
    (profile : MsProfile) : Except String User × Store :=
  match st.users.find? (fun u => u.microsoftId == some profile.oid) with
  | some u =>
    let st1 := { st with
      users := st.users.map (fun v =>
        if v.id == u.id then { v with lastLoginAt := some now } else v) }
    (Except.ok u, st1)
  | none =>
    match st.users.find? (fun u => u.email == profile.email) with
    | some u =>
      let st1 := { st with
        users := st.users.map (fun v =>
          if v.id == u.id then
            { v with microsoftId := some profile.oid, lastLoginAt := some now }
          else v) }
      (Except.ok u, st1)
    | none =>
      let domainAllowed := isDomainAllowed st profile.email
      let isFirstAdmin := cfg.firstAdminEmail == some profile.email
      if !domainAllowed && !isFirstAdmin then
        (Except.error "Domain not allowed. Please contact an administrator.", st)
      else
        let newUser : User :=
          { id := st.nextUserId
            email := profile.email
            passwordHash := ""
            firstName := ""
            lastName := ""
            displayName := profile.name
            role := if isFirstAdmin then "admin" else "user"
            emailVerified := false
            microsoftId := some profile.oid
            lastLoginAt := some now }
        (Except.ok newUser,
         { st with users := st.users ++ [newUser], nextUserId := st.nextUserId + 1 })

/-! ## Concrete sample data used by the witness theorems -/

/-- A toy instantiation of the bcrypt primitive, used to evaluate the
operations on concrete inputs: `hash` tags the password, `verify` checks
the tag. -/
def toyHasher : Hasher :=
  { hash := fun p => "h:" ++ p, verify := fun p h => h == "h:" ++ p }

/-- A sample verified user. -/
def alice : User :=
  { id := 1, email := "alice@example.com", passwordHash := "h:password123"
    firstName := "Alice", lastName := "Lee", displayName := "Alice Lee"
    role := "user", emailVerified := true, microsoftId := none
    lastLoginAt := none }

/-- The session snapshot `loginUser` would produce for `alice`. -/
def aliceSession : SessionUser :=
  { id := 1, email := "alice@example.com", displayName := "Alice Lee"
    firstName := "Alice", lastName := "Lee", role := "user"
    emailVerified := true }

/-- A sample store holding `alice`, one verification token and one reset
token bound to her, and one whitelisted domain. -/
def sampleStore : Store :=
  { users := [alice]
    verificationTokens := [{ id := 1, userId := 1, token := "vtok", expiresAt := 100 }]
    passwordResetTokens := [{ id := 1, userId := 1, token := "rtok", expiresAt := 100 }]
    allowedDomains := ["Example.com"]
    nextUserId := 2, nextVTokenId := 2, nextRTokenId := 2 }

/-- A store with no rows at all. -/
def emptyStore : Store :=
  { users := [], verificationTokens := [], passwordResetTokens := []
    allowedDomains := [], nextUserId := 1, nextVTokenId := 1, nextRTokenId := 1 }

/-! ## Theorems -/

/-- The role-update handler never touches the session table (helper). -/
theorem updateUserRoleHandler_sessions_eq (app : AppState)
    (session : Option SessionUser) (targetId : Nat) (role : String) :
    (updateUserRoleHandler app session targetId role).2.sessions = app.sessions := by
  unfold updateUserRoleHandler
  split
  · rfl
  · split <;> rfl

/-- C7: the `requireAdmin` decision is a function of the session-cached
snapshot only — it is invariant under any change of the store (in
particular under changes to the stored role of the session's user), the
admin role-update handler leaves every session untouched, and hence every
session's `requireAdmin` decision is unchanged by a role update until the
session is replaced at the next login. -/
theorem requireAdmin_session_only_c7 :
    (∀ (st₁ st₂ : Store) (sess : Option SessionUser),
       requireAdminCheck st₁ sess = requireAdminCheck st₂ sess)
    ∧ (∀ (app : AppState) (sess : Option SessionUser) (targetId : Nat) (role : String),
       (updateUserRoleHandler app sess targetId role).2.sessions = app.sessions)
    ∧ (∀ (app : AppState) (sess : Option SessionUser) (targetId : Nat) (role : String) (sid : Nat),
       requireAdminCheck (updateUserRoleHandler app sess targetId role).2.store
           ((updateUserRoleHandler app sess targetId role).2.sessions.lookup sid)
         = requireAdminCheck app.store (app.sessions.lookup sid)) := by
  refine ⟨fun _ _ _ => rfl, updateUserRoleHandler_sessions_eq, ?_⟩
  intro app sess targetId role sid
  rw [updateUserRoleHandler_sessions_eq]
  rfl

/-- C3: a login with an email matching no user and a login with an
existing user's email but a non-verifying password fail with the identical
error — the same thrown message from `loginUser`, and the same 401
status/message from the login route — so the caller cannot tell which
factor failed or whether the account exists. Neither failure mutates the
store. -/
theorem login_indistinguishable_c3 (hasher : Hasher) (st : Store)
    (now₁ now₂ : Nat) (e₁ p₁ e₂ p₂ : String) (u : User)
    (h₁ : st.users.find? (fun v => v.email == jsToLower e₁) = none)
    (h₂ : st.users.find? (fun v => v.email == jsToLower e₂) = some u)
    (h₃ : hasher.verify p₂ u.passwordHash = false)
    (he₁ : e₁ ≠ "") (hp₁ : p₁ ≠ "") (he₂ : e₂ ≠ "") (hp₂ : p₂ ≠ "") :
    loginUser hasher st now₁ e₁ p₁ = (Except.error "Invalid email or password", st)
    ∧ loginUser hasher st now₂ e₂ p₂ = (Except.error "Invalid email or password", st)
    ∧ loginRoute hasher st now₁ e₁ p₁ = (HandlerOut.err 401 "Invalid email or password", st)
    ∧ loginRoute hasher st now₂ e₂ p₂ = (HandlerOut.err 401 "Invalid email or password", st) := by
  have l₁ : loginUser hasher st now₁ e₁ p₁ = (Except.error "Invalid email or password", st) := by
    simp only [loginUser]
    rw [h₁]
  have l₂ : loginUser hasher st now₂ e₂ p₂ = (Except.error "Invalid email or password", st) := by
    simp only [loginUser]
    rw [h₂]
    simp [h₃]
  refine ⟨l₁, l₂, ?_, ?_⟩
  · unfold loginRoute
    rw [l₁]
    simp [he₁, hp₁]
  · unfold loginRoute
    rw [l₂]
    simp [he₂, hp₂]

/-- Witness for C3: on the sample store, a login for the absent
`nobody@x.com` and a login for `alice@example.com` with a wrong password
produce the identical error and 401 response. -/
theorem login_indistinguishable_c3_witness :
    loginUser toyHasher sampleStore 0 "nobody@x.com" "pw"
      = (Except.error "Invalid email or password", sampleStore)
    ∧ loginUser toyHasher sampleStore 0 "alice@example.com" "wrongpw"
      = (Except.error "Invalid email or password", sampleStore)
    ∧ loginRoute toyHasher sampleStore 0 "nobody@x.com" "pw"
      = (HandlerOut.err 401 "Invalid email or password", sampleStore)
    ∧ loginRoute toyHasher sampleStore 0 "alice@example.com" "wrongpw"
      = (HandlerOut.err 401 "Invalid email or password", sampleStore) :=
  login_indistinguishable_c3 toyHasher sampleStore 0 0
    "nobody@x.com" "pw" "alice@example.com" "wrongpw" alice
    (by decide) (by decide) (by decide)
    (by decide) (by decide) (by decide) (by decide)

/-- C9: the `POST /verify-me` handler takes no session and sits behind no
middleware; for any nonempty body email matching exactly one user it sets
that user's `emailVerified` to `true` and role to `"admin"`, returns the
updated row, and writes the change to the store — so any unauthenticated
caller can promote any existing account by email. -/
theorem verify_me_promotes_c9 (st : Store) (email : String) (u : User)
    (h₀ : email ≠ "")
    (h₁ : st.users.filter (fun v => v.email == email) = [u]) :
    verifyMeHandler st email =
      (HandlerOut.ok { u with emailVerified := true, role := "admin" },
       { st with users := st.users.map (fun v =>
           if v.email == email then { v with emailVerified := true, role := "admin" } else v) }) := by
  simp only [verifyMeHandler]
  rw [h₁]
  simp [h₀]

/-- Witness for C9: on the sample store, an unauthenticated `verify-me`
for `alice@example.com` returns her row re-marked verified and admin. -/
theorem verify_me_promotes_c9_witness :
    verifyMeHandler sampleStore "alice@example.com" =
      (HandlerOut.ok { alice with emailVerified := true, role := "admin" },
       { sampleStore with users := sampleStore.users.map (fun v =>
           if v.email == "alice@example.com" then { v with emailVerified := true, role := "admin" } else v) }) :=
  verify_me_promotes_c9 sampleStore "alice@example.com" alice (by decide) (by decide)

/-- C10: on a successful `PATCH /profile/name` the live session snapshot
changes only in `displayName`; its `firstName` and `lastName` (and all
other fields) keep their pre-update values, while the store row receives
the new `firstName`, `lastName` and recomputed `displayName`. -/
theorem profile_name_session_frame_c10 (st : Store) (sess : SessionUser)
    (firstName lastName : String) (u : User)
    (h₀ : sess.id ≠ 0)
    (h₁ : firstName ≠ "") (h₂ : lastName ≠ "")
    (h₃ : (jsTrim firstName).length ≠ 0) (h₄ : (jsTrim lastName).length ≠ 0)
    (h₅ : st.users.filter (fun v => v.id == sess.id) = [u]) :
    profileNameHandler st sess firstName lastName =
      (HandlerOut.ok
         { id := u.id, email := u.email
           displayName := jsTrim firstName ++ " " ++ jsTrim lastName
           firstName := jsTrim firstName, lastName := jsTrim lastName
           role := u.role, emailVerified := u.emailVerified },
       { st with users := st.users.map (fun v =>
           if v.id == sess.id then
             { v with firstName := jsTrim firstName, lastName := jsTrim lastName
                      displayName := jsTrim firstName ++ " " ++ jsTrim lastName }
           else v) },
       { sess with displayName := jsTrim firstName ++ " " ++ jsTrim lastName })
    ∧ (profileNameHandler st sess firstName lastName).2.2.firstName = sess.firstName
    ∧ (profileNameHandler st sess firstName lastName).2.2.lastName = sess.lastName
    ∧ (profileNameHandler st sess firstName lastName).2.2.id = sess.id
    ∧ (profileNameHandler st sess firstName lastName).2.2.email = sess.email
    ∧ (profileNameHandler st sess firstName lastName).2.2.role = sess.role
    ∧ (profileNameHandler st sess firstName lastName).2.2.emailVerified = sess.emailVerified := by
  have hmain : profileNameHandler st sess firstName lastName =
      (HandlerOut.ok
         { id := u.id, email := u.email
           displayName := jsTrim firstName ++ " " ++ jsTrim lastName
           firstName := jsTrim firstName, lastName := jsTrim lastName
           role := u.role, emailVerified := u.emailVerified },
       { st with users := st.users.map (fun v =>
           if v.id == sess.id then
             { v with firstName := jsTrim firstName, lastName := jsTrim lastName
                      displayName := jsTrim firstName ++ " " ++ jsTrim lastName }
           else v) },
       { sess with displayName := jsTrim firstName ++ " " ++ jsTrim lastName }) := by
    simp only [profileNameHandler]
    rw [h₅]
    simp [h₀, h₁, h₂, h₃, h₄]
  refine ⟨hmain, ?_, ?_, ?_, ?_, ?_, ?_⟩ <;> rw [hmain]

/-- Witness for C10: on the sample store, Alice renames herself to
"Al Smith"; her session keeps `firstName = "Alice"` and
`lastName = "Lee"` while only its `displayName` becomes "Al Smith". -/
theorem profile_name_session_frame_c10_witness :
    (profileNameHandler sampleStore aliceSession " Al " " Smith ").2.2.firstName = "Alice"
    ∧ (profileNameHandler sampleStore aliceSession " Al " " Smith ").2.2.lastName = "Lee"
    ∧ (profileNameHandler sampleStore aliceSession " Al " " Smith ").2.2.displayName = "Al Smith" := by
  have h := profile_name_session_frame_c10 sampleStore aliceSession " Al " " Smith " alice
    (by decide) (by decide) (by decide) (by decide) (by decide) (by decide)
  exact ⟨h.2.1, h.2.2.1, by rw [h.1]; rfl⟩

/-- Counterexample to C6: Alice's session resolves to her row and the
supplied current password does not verify, yet with a 5-character new
password the handler answers with the weak-password error, not
`InvalidCurrentPassword` — the 8-character floor is checked first. -/
theorem changePassword_weak_first_c6_cex :
    (changePasswordHandler toyHasher sampleStore aliceSession "wrongpw" "short").1
      = HandlerOut.err 400 "New password must be at least 8 characters long"
    ∧ (changePasswordHandler toyHasher sampleStore aliceSession "wrongpw" "short").1
      ≠ HandlerOut.err 400 "Current password is incorrect"
    ∧ (sampleStore.users.find? (fun v => v.id == aliceSession.id)) = some alice
    ∧ toyHasher.verify "wrongpw" alice.passwordHash = false := by decide

/-- C6 (amended): when both password fields are nonempty and the new
password meets the 8-character floor, a change-password call whose session
user id resolves to an existing row and whose current password does not
verify fails with `InvalidCurrentPassword` and leaves the store unchanged;
the handler checks the floor before the current password, so a shorter new
password fails with `WeakPassword` instead. -/
theorem changePassword_invalid_current_c6 (hasher : Hasher) (st : Store)
    (sess : SessionUser) (currentPassword newPassword : String) (u : User)
    (h₀ : sess.id ≠ 0)
    (h₁ : currentPassword ≠ "") (h₂ : newPassword ≠ "")
    (h₃ : ¬ newPassword.length < 8)
    (h₄ : st.users.find? (fun v => v.id == sess.id) = some u)
    (h₅ : hasher.verify currentPassword u.passwordHash = false) :
    changePasswordHandler hasher st sess currentPassword newPassword
      = (HandlerOut.err 400 "Current password is incorrect", st) := by
  simp only [changePasswordHandler]
  rw [h₄]
  simp [h₀, h₁, h₂, h₃, h₅]

/-- Witness for the amended C6: with an 11-character new password, the
same wrong current password yields `InvalidCurrentPassword`. -/
theorem changePassword_invalid_current_c6_witness :
    changePasswordHandler toyHasher sampleStore aliceSession "wrongpw" "longenough1"
      = (HandlerOut.err 400 "Current password is incorrect", sampleStore) :=
  changePassword_invalid_current_c6 toyHasher sampleStore aliceSession
    "wrongpw" "longenough1" alice (by decide) (by decide) (by decide)
    (by decide) (by decide) (by decide)

/-- Counterexample to C5: the legacy SSO `getOrCreateUser`, provisioning a
fresh profile whose email is the bootstrap admin address
`"Alice@Example.com"`, stores that email verbatim — the stored value is
not lowercase, so not every provisioning path normalizes emails. -/
theorem sso_email_not_normalized_c5_cex :
    ((getOrCreateUser ⟨true, true, some "Alice@Example.com"⟩ emptyStore 0
        ⟨"oid-1", "Alice@Example.com", "Alice"⟩).2.users.map User.email
      = ["Alice@Example.com"])
    ∧ jsToLower "Alice@Example.com" ≠ "Alice@Example.com" := by decide

/-- C5 (amended): the password-based provisioning and lookup paths —
`registerUser`, `loginUser` and `createPasswordResetToken` — are invariant
under the case of the input email (they normalize it to lowercase before
storage/lookup, and a successful registration stores the lowercased
email); the legacy SSO `getOrCreateUser` does not normalize, storing and
looking up the profile email verbatim. -/
theorem email_case_insensitive_c5 :
    (∀ (cfg : Config) (hasher : Hasher) (st : Store) (now : Nat)
       (tokenStr e₁ e₂ password firstName lastName : String),
       jsToLower e₁ = jsToLower e₂ →
       registerUser cfg hasher st now tokenStr e₁ password firstName lastName
         = registerUser cfg hasher st now tokenStr e₂ password firstName lastName)
    ∧ (∀ (hasher : Hasher) (st : Store) (now : Nat) (e₁ e₂ password : String),
       jsToLower e₁ = jsToLower e₂ →
       loginUser hasher st now e₁ password = loginUser hasher st now e₂ password)
    ∧ (∀ (st : Store) (now : Nat) (tokenStr e₁ e₂ : String),
       jsToLower e₁ = jsToLower e₂ →
       createPasswordResetToken st now tokenStr e₁
         = createPasswordResetToken st now tokenStr e₂)
    ∧ (∀ (cfg : Config) (hasher : Hasher) (st : Store) (now : Nat)
       (tokenStr e password firstName lastName : String) (u : User),
       (registerUser cfg hasher st now tokenStr e password firstName lastName).1
         = Except.ok u →
       u.email = jsToLower e) := by
  refine ⟨?_, ?_, ?_, ?_⟩
  · intro cfg hasher st now tokenStr e₁ e₂ password firstName lastName h
    simp only [registerUser, h]
  · intro hasher st now e₁ e₂ password h
    simp only [loginUser, h]
  · intro st now tokenStr e₁ e₂ h
    simp only [createPasswordResetToken, h]
  · intro cfg hasher st now tokenStr e password firstName lastName u h
    simp only [registerUser] at h
    split at h
    · exact absurd h (by simp)
    · split at h
      · exact absurd h (by simp)
      · split at h
        · exact absurd h (by simp)
        · split at h
          · split at h
            · cases h
              rfl
            · exact absurd h (by simp)
          · cases h
            rfl

/-- Witness for the amended C5: concrete case-variant inputs give
identical results on the three password-based operations, and a concrete
successful registration stores the lowercased email. -/
theorem email_case_insensitive_c5_witness :
    (registerUser ⟨false, true, none⟩ toyHasher emptyStore 0 "t"
        "Bob@Example.COM" "password123" "Bob" "Jones"
      = registerUser ⟨false, true, none⟩ toyHasher emptyStore 0 "t"
          "bob@example.com" "password123" "Bob" "Jones")
    ∧ (loginUser toyHasher sampleStore 0 "ALICE@EXAMPLE.COM" "password123"
      = loginUser toyHasher sampleStore 0 "alice@example.com" "password123")
    ∧ (createPasswordResetToken sampleStore 0 "fresh" "Alice@Example.COM"
      = createPasswordResetToken sampleStore 0 "fresh" "alice@example.com")
    ∧ (registerUser ⟨false, true, none⟩ toyHasher emptyStore 0 "t"
        "Bob@Example.COM" "password123" "Bob" "Jones").1
        = Except.ok
            { id := 1, email := "bob@example.com", passwordHash := "h:password123"
              firstName := "Bob", lastName := "Jones", displayName := "Bob Jones"
              role := "user", emailVerified := true, microsoftId := none
              lastLoginAt := none }
    ∧ ({ id := 1, email := "bob@example.com", passwordHash := "h:password123"
         firstName := "Bob", lastName := "Jones", displayName := "Bob Jones"
         role := "user", emailVerified := true, microsoftId := none
         lastLoginAt := none } : User).email = jsToLower "Bob@Example.COM" := by
  refine ⟨?_, ?_, ?_, by decide, ?_⟩
  · exact email_case_insensitive_c5.1 ⟨false, true, none⟩ toyHasher emptyStore 0 "t"
      "Bob@Example.COM" "bob@example.com" "password123" "Bob" "Jones" (by decide)
  · exact email_case_insensitive_c5.2.1 toyHasher sampleStore 0
      "ALICE@EXAMPLE.COM" "alice@example.com" "password123" (by decide)
  · exact email_case_insensitive_c5.2.2.1 sampleStore 0 "fresh"
      "Alice@Example.COM" "alice@example.com" (by decide)
  · exact email_case_insensitive_c5.2.2.2 ⟨false, true, none⟩ toyHasher emptyStore 0 "t"
      "Bob@Example.COM" "password123" "Bob" "Jones" _ (by decide)

/-- Splitting a character list that does not contain the separator yields
the single original segment (helper for the domain check). -/
theorem jsSplit_of_not_mem (sep : Char) (l : List Char) (h : sep ∉ l) :
    jsSplit sep l = [l] := by
  induction l with
  | nil => rfl
  | cons c r ih =>
    have hc : c ≠ sep := fun hcs => h (hcs ▸ List.mem_cons_self c r)
    have hr : sep ∉ r := fun hm => h (List.mem_cons_of_mem c hm)
    simp only [jsSplit, if_neg hc, ih hr]

/-- C8: when a fresh SSO profile matches no user by `microsoftId` nor by
email, `getOrCreateUser` fails with `DomainNotAllowed` exactly when the
email's extracted domain is not on the `allowed_domains` whitelist and the
email is not the designated bootstrap admin email; and an email containing
no `@` never passes the domain check. -/
theorem domain_admission_c8 (cfg : Config) (st : Store) (now : Nat)
    (profile : MsProfile)
    (h₁ : ∀ u ∈ st.users, u.microsoftId ≠ some profile.oid)
    (h₂ : ∀ u ∈ st.users, u.email ≠ profile.email) :
    ((getOrCreateUser cfg st now profile).1
        = Except.error "Domain not allowed. Please contact an administrator."
      ↔ (isDomainAllowed st profile.email = false
         ∧ cfg.firstAdminEmail ≠ some profile.email))
    ∧ (∀ e : String, '@' ∉ e.data → isDomainAllowed st e = false) := by
  have hf₁ : st.users.find? (fun u => u.microsoftId == some profile.oid) = none := by
    rw [List.find?_eq_none]
    intro u hu
    simp [h₁ u hu]
  have hf₂ : st.users.find? (fun u => u.email == profile.email) = none := by
    rw [List.find?_eq_none]
    intro u hu
    simp [h₂ u hu]
  constructor
  · simp only [getOrCreateUser, hf₁, hf₂]
    by_cases hd : isDomainAllowed st profile.email
    · by_cases ha : cfg.firstAdminEmail = some profile.email
      · simp [hd, ha]
      · simp [hd, ha]
    · by_cases ha : cfg.firstAdminEmail = some profile.email
      · simp [hd, ha]
      · simp [hd, ha]
  · intro e he
    unfold isDomainAllowed
    rw [jsSplit_of_not_mem '@' e.data he]
    rfl

/-- Witness for C8: on the empty store with bootstrap admin
`boss@x.com`, the fresh profile `nobody@nowhere.xyz` is rejected with
`DomainNotAllowed` (the equivalence instantiated concretely), and the
at-sign-free string `"noat"` never passes the domain check. -/
theorem domain_admission_c8_witness :
    ((getOrCreateUser ⟨false, true, some "boss@x.com"⟩ emptyStore 0
        ⟨"oid-9", "nobody@nowhere.xyz", "Nobody"⟩).1
        = Except.error "Domain not allowed. Please contact an administrator."
      ↔ (isDomainAllowed emptyStore "nobody@nowhere.xyz" = false
         ∧ (⟨false, true, some "boss@x.com"⟩ : Config).firstAdminEmail
             ≠ some "nobody@nowhere.xyz"))
    ∧ isDomainAllowed emptyStore "noat" = false := by
  have h := domain_admission_c8 ⟨false, true, some "boss@x.com"⟩ emptyStore 0
    ⟨"oid-9", "nobody@nowhere.xyz", "Nobody"⟩ (by decide) (by decide)
  exact ⟨h.1, h.2 "noat" (by decide)⟩

/-- C2: tokens are single-use. Under the `token` column's uniqueness
constraint (no duplicate token strings), a successful `verifyEmailToken`
deletes the consumed verification token — no surviving row carries that
token string — and a second call with the same token fails with
`InvalidOrExpiredToken`; likewise a successful `resetPasswordWithToken`
deletes the consumed reset token and a second call (with any new
password) fails with `InvalidOrExpiredToken`. -/
theorem token_single_use_c2 :
    (∀ (st : Store) (now now' : Nat) (tok : String) (st' : Store) (r : Bool),
       (st.verificationTokens.map TokenRow.token).Nodup →
       verifyEmailToken st now tok = (Except.ok r, st') →
       (∀ t ∈ st'.verificationTokens, t.token ≠ tok)
       ∧ verifyEmailToken st' now' tok
           = (Except.error "Invalid or expired verification token", st'))
    ∧ (∀ (hasher : Hasher) (st : Store) (now now' : Nat)
         (tok pw pw' : String) (st' : Store) (r : Bool),
       (st.passwordResetTokens.map TokenRow.token).Nodup →
       resetPasswordWithToken hasher st now tok pw = (Except.ok r, st') →
       (∀ t ∈ st'.passwordResetTokens, t.token ≠ tok)
       ∧ resetPasswordWithToken hasher st' now' tok pw'
           = (Except.error "Invalid or expired reset token", st')) := by
  constructor
  · intro st now now' tok st' r hnd hsucc
    simp only [verifyEmailToken] at hsucc
    split at hsucc
    · simp at hsucc
    · next vt hfind =>
      cases hsucc
      have hvt_mem : vt ∈ st.verificationTokens := List.mem_of_find?_eq_some hfind
      have hvt_tok : vt.token = tok := by
        have hp := List.find?_some hfind
        simp only [Bool.and_eq_true, beq_iff_eq, decide_eq_true_eq] at hp
        exact hp.1
      have hA : ∀ t ∈ st.verificationTokens.filter (fun t => t.id ≠ vt.id),
          t.token ≠ tok := by
        intro t ht htok
        rw [List.mem_filter] at ht
        obtain ⟨htm, hid⟩ := ht
        have hid' : t.id ≠ vt.id := by simpa using hid
        have : t = vt :=
          List.inj_on_of_nodup_map hnd htm hvt_mem (by rw [htok, hvt_tok])
        exact hid' (by rw [this])
      refine ⟨hA, ?_⟩
      have hnone : (st.verificationTokens.filter (fun t => t.id ≠ vt.id)).find?
          (fun t => t.token == tok && decide (now' < t.expiresAt)) = none := by
        rw [List.find?_eq_none]
        intro t ht
        simp [hA t ht]
      simp only [verifyEmailToken, hnone]
  · intro hasher st now now' tok pw pw' st' r hnd hsucc
    simp only [resetPasswordWithToken] at hsucc
    split at hsucc
    · simp at hsucc
    · next rt hfind =>
      split at hsucc
      · simp at hsucc
      · cases hsucc
        have hrt_mem : rt ∈ st.passwordResetTokens := List.mem_of_find?_eq_some hfind
        have hrt_tok : rt.token = tok := by
          have hp := List.find?_some hfind
          simp only [Bool.and_eq_true, beq_iff_eq, decide_eq_true_eq] at hp
          exact hp.1
        have hA : ∀ t ∈ st.passwordResetTokens.filter (fun t => t.id ≠ rt.id),
            t.token ≠ tok := by
          intro t ht htok
          rw [List.mem_filter] at ht
          obtain ⟨htm, hid⟩ := ht
          have hid' : t.id ≠ rt.id := by simpa using hid
          have : t = rt :=
            List.inj_on_of_nodup_map hnd htm hrt_mem (by rw [htok, hrt_tok])
          exact hid' (by rw [this])
        refine ⟨hA, ?_⟩
        have hnone : (st.passwordResetTokens.filter (fun t => t.id ≠ rt.id)).find?
            (fun t => t.token == tok && decide (now' < t.expiresAt)) = none := by
          rw [List.find?_eq_none]
          intro t ht
          simp [hA t ht]
        simp only [resetPasswordWithToken, hnone]

/-- Witness for C2: on the sample store, consuming the verification token
`"vtok"` and then presenting it again fails with the invalid-token error,
and likewise for the reset token `"rtok"`. -/
theorem token_single_use_c2_witness :
    verifyEmailToken (verifyEmailToken sampleStore 0 "vtok").2 0 "vtok"
      = (Except.error "Invalid or expired verification token",
         (verifyEmailToken sampleStore 0 "vtok").2)
    ∧ resetPasswordWithToken toyHasher
        (resetPasswordWithToken toyHasher sampleStore 0 "rtok" "newpassword1").2
        0 "rtok" "newpassword2"
      = (Except.error "Invalid or expired reset token",
         (resetPasswordWithToken toyHasher sampleStore 0 "rtok" "newpassword1").2) := by
  constructor
  · exact (token_single_use_c2.1 sampleStore 0 0 "vtok"
      (verifyEmailToken sampleStore 0 "vtok").2 true (by decide) (by decide)).2
  · exact (token_single_use_c2.2 toyHasher sampleStore 0 0 "rtok"
      "newpassword1" "newpassword2"
      (resetPasswordWithToken toyHasher sampleStore 0 "rtok" "newpassword1").2
      true (by decide) (by decide)).2

/-- C4: under the `token` column's uniqueness constraint and freshness of
the generated token, a successful `createPasswordResetToken` leaves
exactly one reset token bound to the user — the operation first deletes
all of the user's outstanding reset tokens — and every previously issued
reset token of that user no longer verifies afterwards. -/
theorem reset_token_exclusive_c4 (st : Store) (now now' : Nat)
    (tokenStr email : String) (u : User)
    (hfind : st.users.find? (fun v => v.email == jsToLower email) = some u)
    (hnd : (st.passwordResetTokens.map TokenRow.token).Nodup)
    (hfresh : tokenStr ∉ st.passwordResetTokens.map TokenRow.token) :
    (createPasswordResetToken st now tokenStr email).1 = some tokenStr
    ∧ ((createPasswordResetToken st now tokenStr email).2.passwordResetTokens.filter
        (fun t => t.userId == u.id))
      = [{ id := st.nextRTokenId, userId := u.id, token := tokenStr
           expiresAt := now + 60 * 60 * 1000 }]
    ∧ ∀ told ∈ st.passwordResetTokens, told.userId = u.id →
        verifyPasswordResetToken (createPasswordResetToken st now tokenStr email).2
          now' told.token = none := by
  have hmain : createPasswordResetToken st now tokenStr email
      = (some tokenStr,
         { st with
           passwordResetTokens :=
             st.passwordResetTokens.filter (fun t => t.userId ≠ u.id) ++
               ([{ id := st.nextRTokenId, userId := u.id, token := tokenStr
                   expiresAt := now + 60 * 60 * 1000 }] : List TokenRow),
           nextRTokenId := st.nextRTokenId + 1 }) := by
    simp only [createPasswordResetToken, hfind]
  refine ⟨by rw [hmain], ?_, ?_⟩
  · rw [hmain]
    simp only [List.filter_append, List.filter_filter]
    have h1 : st.passwordResetTokens.filter
        (fun t => (t.userId == u.id) && decide (t.userId ≠ u.id)) = [] := by
      rw [List.filter_eq_nil_iff]
      intro t _
      by_cases h : t.userId = u.id <;> simp [h]
    rw [h1]
    simp
  · intro told htold hui
    have hnone : (st.passwordResetTokens.filter (fun t => t.userId ≠ u.id) ++
        ([{ id := st.nextRTokenId, userId := u.id, token := tokenStr
            expiresAt := now + 60 * 60 * 1000 }] : List TokenRow)).find?
        (fun t => t.token == told.token && decide (now' < t.expiresAt)) = none := by
      rw [List.find?_eq_none]
      intro t ht
      rcases List.mem_append.mp ht with hmem | hrow
      · rw [List.mem_filter] at hmem
        obtain ⟨htm, hid⟩ := hmem
        have hid' : t.userId ≠ u.id := by simpa using hid
        have htok : t.token ≠ told.token := by
          intro htok
          exact hid' (by rw [List.inj_on_of_nodup_map hnd htm htold htok, hui])
        simp [htok]
      · rw [List.mem_singleton] at hrow
        have htok : t.token ≠ told.token := by
          rw [hrow]
          intro htok
          have htok2 : tokenStr = told.token := htok
          exact hfresh (htok2 ▸ List.mem_map_of_mem TokenRow.token htold)
        simp [htok]
    rw [hmain]
    simp only [verifyPasswordResetToken, hnone]

/-- Witness for C4: on the sample store (which holds Alice's old reset
token `"rtok"`), requesting a fresh reset token for her email leaves
exactly the new token bound to her, and the old token no longer
verifies. -/
theorem reset_token_exclusive_c4_witness :
    (createPasswordResetToken sampleStore 0 "fresh" "alice@example.com").1 = some "fresh"
    ∧ ((createPasswordResetToken sampleStore 0 "fresh" "alice@example.com").2.passwordResetTokens.filter
        (fun t => t.userId == alice.id))
      = [{ id := 2, userId := 1, token := "fresh", expiresAt := 3600000 }]
    ∧ verifyPasswordResetToken
        (createPasswordResetToken sampleStore 0 "fresh" "alice@example.com").2
        50 "rtok" = none := by
  have h := reset_token_exclusive_c4 sampleStore 0 50 "fresh" "alice@example.com"
    alice (by decide) (by decide) (by decide)
  exact ⟨h.1, h.2.1, h.2.2 { id := 1, userId := 1, token := "rtok", expiresAt := 100 }
    (by decide) (by decide)⟩

/-- C1: with SMTP configured and the verification-email send failing, an
otherwise valid registration fails with `EmailDeliveryFailed` and rolls
back: the newly created user row is deleted (the token rows cascading with
it per the applied DDL), leaving exactly the pre-call `users`,
`verification_tokens` and `password_reset_tokens` rows — in particular no
user row with the registered email and no surviving verification token
for the deleted user. -/
theorem register_rollback_c1 (cfg : Config) (hasher : Hasher) (st : Store)
    (now : Nat) (tokenStr email password firstName lastName : String)
    (hsmtp : cfg.smtpConfigured = true) (hsend : cfg.sendOk = false)
    (hdup : ∀ u ∈ st.users, u.email ≠ jsToLower email)
    (hpw : ¬ password.length < 8)
    (hfn : (jsTrim firstName).length ≠ 0) (hln : (jsTrim lastName).length ≠ 0)
    (hfreshU : ∀ u ∈ st.users, u.id ≠ st.nextUserId)
    (hfreshV : ∀ t ∈ st.verificationTokens, t.userId ≠ st.nextUserId)
    (hfreshR : ∀ t ∈ st.passwordResetTokens, t.userId ≠ st.nextUserId) :
    (registerUser cfg hasher st now tokenStr email password firstName lastName).1
      = Except.error "Failed to send verification email. Please check your email configuration."
    ∧ (registerUser cfg hasher st now tokenStr email password firstName lastName).2.users
      = st.users
    ∧ (registerUser cfg hasher st now tokenStr email password firstName lastName).2.verificationTokens
      = st.verificationTokens
    ∧ (registerUser cfg hasher st now tokenStr email password firstName lastName).2.passwordResetTokens
      = st.passwordResetTokens
    ∧ ∀ u ∈ (registerUser cfg hasher st now tokenStr email password firstName lastName).2.users,
        u.email ≠ jsToLower email := by
  have hany : st.users.any (fun u => u.email == jsToLower email) = false := by
    rw [List.any_eq_false]
    intro u hu
    simp [hdup u hu]
  have husers : (st.users ++
      [({ id := st.nextUserId, email := jsToLower email,
          passwordHash := hasher.hash password,
          firstName := jsTrim firstName, lastName := jsTrim lastName,
          displayName := jsTrim firstName ++ " " ++ jsTrim lastName,
          role := "user", emailVerified := !cfg.smtpConfigured,
          microsoftId := none, lastLoginAt := none } : User)]).filter
      (fun u => u.id ≠ st.nextUserId) = st.users := by
    rw [List.filter_append]
    have h1 : st.users.filter (fun u => u.id ≠ st.nextUserId) = st.users :=
      List.filter_eq_self.mpr (fun u hu => by simp [hfreshU u hu])
    have h2 : ([({ id := st.nextUserId, email := jsToLower email,
                   passwordHash := hasher.hash password,
                   firstName := jsTrim firstName, lastName := jsTrim lastName,
                   displayName := jsTrim firstName ++ " " ++ jsTrim lastName,
                   role := "user", emailVerified := !cfg.smtpConfigured,
                   microsoftId := none, lastLoginAt := none } : User)] : List User).filter
        (fun u => u.id ≠ st.nextUserId) = [] := by simp
    rw [h1, h2, List.append_nil]
  have hvtoks : (st.verificationTokens ++
      [({ id := st.nextVTokenId, userId := st.nextUserId, token := tokenStr,
          expiresAt := now + 24 * 60 * 60 * 1000 } : TokenRow)]).filter
      (fun t => t.userId ≠ st.nextUserId) = st.verificationTokens := by
    rw [List.filter_append]
    have h1 : st.verificationTokens.filter (fun t => t.userId ≠ st.nextUserId)
        = st.verificationTokens :=
      List.filter_eq_self.mpr (fun t ht => by simp [hfreshV t ht])
    have h2 : ([({ id := st.nextVTokenId, userId := st.nextUserId, token := tokenStr,
                   expiresAt := now + 24 * 60 * 60 * 1000 } : TokenRow)] : List TokenRow).filter
        (fun t => t.userId ≠ st.nextUserId) = [] := by simp
    rw [h1, h2, List.append_nil]
  have hrtoks : st.passwordResetTokens.filter (fun t => t.userId ≠ st.nextUserId)
      = st.passwordResetTokens :=
    List.filter_eq_self.mpr (fun t ht => by simp [hfreshR t ht])
  have hmain : registerUser cfg hasher st now tokenStr email password firstName lastName
      = (Except.error "Failed to send verification email. Please check your email configuration.",
         { st with nextUserId := st.nextUserId + 1, nextVTokenId := st.nextVTokenId + 1 }) := by
    simp only [registerUser, hany, hsmtp, hsend, deleteUserCascade]
    simp [hpw, hfn, hln, husers, hvtoks, hrtoks]
    exact ⟨hfreshU, hfreshV, hfreshR⟩
  rw [hmain]
  refine ⟨rfl, rfl, rfl, rfl, ?_⟩
  intro u hu
  exact hdup u hu

/-- Witness for C1: registering `Bob@New.org` on the sample store with
SMTP configured and a failing mailer returns `EmailDeliveryFailed` and
leaves the sample store's rows exactly as they were. -/
theorem register_rollback_c1_witness :
    (registerUser ⟨true, false, none⟩ toyHasher sampleStore 0 "t"
        "Bob@New.org" "password123" "Bob" "Jones").1
      = Except.error "Failed to send verification email. Please check your email configuration."
    ∧ (registerUser ⟨true, false, none⟩ toyHasher sampleStore 0 "t"
        "Bob@New.org" "password123" "Bob" "Jones").2.users = sampleStore.users
    ∧ (registerUser ⟨true, false, none⟩ toyHasher sampleStore 0 "t"
        "Bob@New.org" "password123" "Bob" "Jones").2.verificationTokens
      = sampleStore.verificationTokens
    ∧ (registerUser ⟨true, false, none⟩ toyHasher sampleStore 0 "t"
        "Bob@New.org" "password123" "Bob" "Jones").2.passwordResetTokens
      = sampleStore.passwordResetTokens := by
  have h := register_rollback_c1 ⟨true, false, none⟩ toyHasher sampleStore 0 "t"
    "Bob@New.org" "password123" "Bob" "Jones" (by decide) (by decide) (by decide)
    (by decide) (by decide) (by decide) (by decide) (by decide) (by decide)
  exact ⟨h.1, h.2.1, h.2.2.1, h.2.2.2.1⟩

end DailySummarizer
